import Mathlib

/-!
Verification development for the KeepLiveService native core
(src/framework/src/main/cpp/fw_force_stop.cpp).

The file shallowly embeds the functions of fw_force_stop.cpp that the
claims are about.  Effects (file locks, file creation and deletion,
driver transactions, signals) are represented by explicit event traces,
and the two-process observer-file barrier is represented by a labelled
step relation on a global state.  Machine integers are modelled by
Nat/Int; no overflow is relevant to any function embedded here.
-/

namespace KeepLive

/-! ## Platform-revision to command-code mapping -/

/-- Embeds getStartServiceTransactionCode (fw_force_stop.cpp:288-300): a
switch on sdkVersion with cases 26,27 -> 26; 28 -> 30; 29 -> 24;
default -> 34.  The C argument is an int, so the domain is Int. -/
def getStartServiceTransactionCode (sdkVersion : Int) : Nat :=
  if sdkVersion = 26 ∨ sdkVersion = 27 then 26
  else if sdkVersion = 28 then 30
  else if sdkVersion = 29 then 24
  else 34

/-! ## Service resolution -/

/-- One embedded capability reference of a registry reply, as read back
from the driver (struct flat_binder_object: only the handle field is
consumed by getServiceHandle, fw_force_stop.cpp:164-167). -/
structure FlatBinderObject where
  handle : Nat
deriving DecidableEq

/-- A registry reply: the sequence of embedded capability references it
carries.  The payload bytes are never consumed by getServiceHandle and
are therefore omitted. -/
structure RegistryReply where
  objects : List FlatBinderObject
deriving DecidableEq

/-- Modelled from the spec: Parcel::readObject and write_transact are
declared in binder/data_transact.h and binder/cParcel.h but their
implementations are not under src/.  Per spec section 4.3, resolve
"extracts the first embedded capability reference from the reply
payload" and the reply may carry no embedded reference, in which case
readObject yields null.  readObject(false) is therefore the head of the
reply object list, when present. -/
def readObject (r : RegistryReply) : Option FlatBinderObject :=
  r.objects.head?

/-- Embeds getServiceHandle (fw_force_stop.cpp:152-176): the function
writes the IServiceManager interface token and the service name, calls
write_transact on handle 0 with CHECK_SERVICE_TRANSACTION, then reads
the first embedded object of the reply; handle stays 0 when the reply
carries none.  The remote registry is abstracted as the environment
`registry`, mapping the queried name to the reply it returns for the
checkService transaction.  The C function has no throwing or aborting
path (both branches fall through to the deletes and the return); the
embedding is correspondingly a total function into Nat. -/
def getServiceHandle (registry : String → RegistryReply) (serviceName : String) : Nat :=
  match readObject (registry serviceName) with
  | some flat => flat.handle
  | none => 0

/-! ## File locking -/

/-- Embeds lockFile (fw_force_stop.cpp:200-223).  The function opens the
lock file (creating it when the first open fails) and then issues
flock(fd, LOCK_EX | LOCK_NB).  With LOCK_NB the kernel never suspends
the caller: the call returns -1 at once when another process holds the
lock, so lockFile always returns immediately, 1 on success and 0 when
the file cannot be opened or the lock is contended. -/
def lockFile (openOk : Bool) (heldByOther : Bool) : Nat :=
  if openOk = false then 0
  else if heldByOther then 0 else 1

/-! ## The daemon trace model

doDaemon (fw_force_stop.cpp:313-374) is a straight-line procedure with
one bounded retry loop; it is embedded as a total function from an
environment (the outcome the kernel gives each lock call, and the
values fed to the transaction) to the trace of effects the procedure
performs. -/

/-- One observable effect of doDaemon, in source order:
self-lock attempts (fw_force_stop.cpp:325), the 10000 microsecond
backoff (line 328), the observer-file barrier notifyAndWaitFor (line
337), opening the driver (line 340), the checkService lookup (line
345), pre-building the startService parcel (lines 348-349), the
sibling-lock attempt (line 353), the write_transact submission with its
flags value and whether a reply parcel was passed (line 360), the
removal of the own observer file (line 364) and the killpg signal
(line 369). -/
inductive Ev where
  | lockSelfAttempt (attempt : Nat) (ok : Bool)
  | sleepUs (us : Nat)
  | notifySync
  | openDriver
  | getService (name : String)
  | buildStartServiceParcel
  | lockSiblingAttempt (ok : Bool)
  | submitTransact (handle code flags : Nat) (withReply : Bool)
  | removeObserverSelf
  | killProcessGroup (sig : Nat)
deriving DecidableEq

/-- Environment of one doDaemon run: per-attempt outcomes of the
non-blocking self-lock calls, the outcome of the single non-blocking
sibling-lock call, the values reaching write_transact, and the pid
returned by getpid. -/
structure DaemonEnv where
  selfOpenOk : Nat → Bool
  selfHeldByOther : Nat → Bool
  siblingOpenOk : Bool
  siblingHeldByOther : Bool
  amsHandle : Nat
  transactCode : Nat
  pid : Nat

/-- Embeds the retry loop of doDaemon (fw_force_stop.cpp:323-329):
while (tryCount < 5 && !(lockStatus = lockFile(indicatorSelfPath))) {
tryCount++; usleep(10000); }.  `attemptOk k` is the result of the
lockFile call made when tryCount = k.  `fuel` equals 5 - tryCount, so
fuel = 0 exactly when the guard tryCount < 5 fails; the recursion is
structural on fuel.  Returns the emitted events and the final
lockStatus. -/
def lockAttemptPhase (attemptOk : Nat → Bool) : Nat → Nat → List Ev × Bool
  | _, 0 => ([], false)
  | tryCount, fuel + 1 =>
    if attemptOk tryCount then
      ([Ev.lockSelfAttempt tryCount true], true)
    else
      let rest := lockAttemptPhase attemptOk (tryCount + 1) fuel
      (Ev.lockSelfAttempt tryCount false :: Ev.sleepUs 10000 :: rest.1, rest.2)

/-- SIGTERM signal number. -/
def SIGTERM : Nat := 15

/-- TF_ONE_WAY: the flags value 1 passed to write_transact at
fw_force_stop.cpp:360 marks the transaction as oneway
(fire-and-forget, no reply waited for). -/
def TF_ONE_WAY : Nat := 1

/-- Embeds doDaemon (fw_force_stop.cpp:313-374).  Steps, in source
order: (1) the bounded non-blocking self-lock loop; on exhaustion the
function returns at line 334.  (2) notifyAndWaitFor on the observer
files (line 337; refined by the barrier model below).  (3) open_driver
and initProcessState (lines 340-342).  (4) getServiceHandle for
"activity" (line 345).  (5) pre-build the startService parcel (lines
348-349).  (6) one NON-blocking lockFile call on the sibling indicator
path (line 353) - lockFile uses LOCK_EX | LOCK_NB, so this call
returns immediately in either case.  (7) only when that call returned
1: write_transact(amsHandle, transactCode, data, NULL, 1, fd), then
remove(observerSelfPath), then killpg(getpid(), SIGTERM) guarded by
pid > 0 (lines 355-371). -/
def doDaemon (env : DaemonEnv) : List Ev :=
  let phase1 := lockAttemptPhase
    (fun k => lockFile (env.selfOpenOk k) (env.selfHeldByOther k) = 1) 0 5
  if phase1.2 = false then
    phase1.1
  else
    let monitorOk := lockFile env.siblingOpenOk env.siblingHeldByOther = 1
    phase1.1 ++
      [Ev.notifySync, Ev.openDriver, Ev.getService "activity",
       Ev.buildStartServiceParcel, Ev.lockSiblingAttempt monitorOk] ++
      (if monitorOk then
        Ev.submitTransact env.amsHandle env.transactCode TF_ONE_WAY false ::
          Ev.removeObserverSelf ::
          (if 0 < env.pid then [Ev.killProcessGroup SIGTERM] else [])
      else [])

/-- Number of write_transact submissions in a trace. -/
def submitCount (tr : List Ev) : Nat :=
  tr.countP (fun e => match e with
    | Ev.submitTransact _ _ _ _ => true
    | _ => false)

/-- Number of self-lock attempts in a trace. -/
def selfAttemptCount (tr : List Ev) : Nat :=
  tr.countP (fun e => match e with
    | Ev.lockSelfAttempt _ _ => true
    | _ => false)

/-! ## The observer-file barrier

notifyAndWaitFor (fw_force_stop.cpp:260-275) runs in two processes at
once, instance A and instance B, each against the other observer file.
Its body is three phases: open/create the own observer file (lines
262-265), poll until the sibling observer file can be opened (lines
268-270), remove the sibling observer file (line 273).  The two
concurrent runs are embedded as a labelled interleaving step relation
on a global state; each instance owns a program counter that walks the
three phases in source order. -/

/-- Program counter of one instance inside notifyAndWaitFor: before the
create (line 262), inside the poll loop (line 268), returned (after
line 273). -/
inductive BPC where
  | atCreate
  | atWait
  | atDone
deriving DecidableEq

/-- Global state of the two concurrent notifyAndWaitFor runs: both
program counters, existence of each observer file, whether each
instance has executed its create step, and how many times each
instance has removed the sibling observer file. -/
structure BState where
  pcA : BPC
  pcB : BPC
  fileA : Bool
  fileB : Bool
  createdA : Bool
  createdB : Bool
  delA : Nat
  delB : Nat
deriving DecidableEq

/-- Initial barrier state: both instances at the create step and, on a
fresh start, neither observer file exists (the entry point
startForceStopDaemon pre-creates only indicator files, never observer
files; see initCreates below). -/
def binit : BState :=
  { pcA := BPC.atCreate, pcB := BPC.atCreate
    fileA := false, fileB := false
    createdA := false, createdB := false
    delA := 0, delB := 0 }

/-- One interleaving step of the two notifyAndWaitFor runs.  createX:
lines 262-265, the instance opens or creates its own observer file and
moves to the poll loop.  pollX: line 268, the open of the sibling
observer file fails because the file does not exist; the instance
stays in the loop (usleep, state unchanged).  passX: lines 268-273,
the open succeeds because the sibling observer file exists, the loop
exits and the instance removes the sibling file and returns. -/
inductive BStep : BState → BState → Prop where
  | createA (s : BState) (h : s.pcA = BPC.atCreate) :
      BStep s { s with pcA := BPC.atWait, fileA := true, createdA := true }
  | pollA (s : BState) (h : s.pcA = BPC.atWait) (hf : s.fileB = false) :
      BStep s s
  | passA (s : BState) (h : s.pcA = BPC.atWait) (hf : s.fileB = true) :
      BStep s { s with pcA := BPC.atDone, fileB := false, delA := s.delA + 1 }
  | createB (s : BState) (h : s.pcB = BPC.atCreate) :
      BStep s { s with pcB := BPC.atWait, fileB := true, createdB := true }
  | pollB (s : BState) (h : s.pcB = BPC.atWait) (hf : s.fileA = false) :
      BStep s s
  | passB (s : BState) (h : s.pcB = BPC.atWait) (hf : s.fileA = true) :
      BStep s { s with pcB := BPC.atDone, fileA := false, delB := s.delB + 1 }

/-- A barrier state is reachable when some interleaving of the two runs
produces it from the fresh-start state. -/
def BReach (s : BState) : Prop :=
  Relation.ReflTransGen BStep binit s

/-! ## The blocking-wait drain loop

waitForFileLock (fw_force_stop.cpp:234-250) opens the lock file and
runs: while (flock(fd, LOCK_EX | LOCK_NB) != -1) usleep(1000); then a
final blocking flock(fd, LOCK_EX). -/

/-- Embeds the drain loop of waitForFileLock (fw_force_stop.cpp:241-243)
together with the kernel flock semantics on one descriptor: the
non-blocking exclusive request fails (returns -1) exactly when another
process holds the lock; when this process already holds the lock
through the same descriptor the request is a same-mode conversion and
succeeds; when nobody holds it the request acquires it, after which
this process holds it.  The loop body is only usleep: it contains no
unlock, so a successful acquisition leaves the lock held by this
process for every later iteration.  `contended k` tells whether another
process holds the lock when iteration k runs (exclusive locking makes
it irrelevant while selfHolds is true, since no other process can then
hold the lock).  Returns the iteration index at which the loop
condition first fails, or none when all `fuel` iterations succeed. -/
def drainLoop (contended : Nat → Bool) (selfHolds : Bool) (k : Nat) : Nat → Option Nat
  | 0 => none
  | fuel + 1 =>
    if selfHolds || !contended k then drainLoop contended true (k + 1) fuel
    else some k

/-- Embeds waitForFileLock (fw_force_stop.cpp:234-250): the drain loop,
then the final blocking flock(fd, LOCK_EX), which (once the loop has
exited) returns 0 when the contending holder releases or dies, making
the function return true.  The function returns only if the drain loop
exits within the observed iterations. -/
def waitForFileLock (contended : Nat → Bool) (fuel : Nat) : Option Bool :=
  match drainLoop contended false 0 fuel with
  | none => none
  | some _ => some true

/-! ## The daemon-start entry point -/

/-- One observable effect of the startForceStopDaemon entry point
outside doDaemon: a fork call, the pre-creation of a marker file by
createFileIfNotExist (fw_force_stop.cpp:183-188), the process-name
change, the waitpid on the middle child, or one doDaemon event. -/
inductive SysEv where
  | createFile (p : String)
  | setProcName (n : String)
  | waitMiddleChild
  | daemonStep (e : Ev)
deriving DecidableEq

/-- True on the events of the guarding phase (the doDaemon run). -/
def SysEv.isDaemonStep : SysEv → Bool
  | SysEv.daemonStep _ => true
  | _ => false

/-- Marker files created during the Init phase of a trace: createFile
events that occur before the first doDaemon event. -/
def initCreates (tr : List SysEv) : List String :=
  (tr.takeWhile (fun e => !e.isDaemonStep)).filterMap
    (fun e => match e with
      | SysEv.createFile p => some p
      | _ => none)

/-- The fixed suffix giving the detached daemon its own path namespace:
snprintf(buf, MAX_PATH, "%s-c", path) at fw_force_stop.cpp:499-502. -/
def childSuffix (p : String) : String := p ++ "-c"

/-- Arguments of startForceStopDaemon: the four jstring path arguments
(each may be NULL, hence Option), the package and service names and
the sdk version. -/
structure StartArgs where
  indicatorSelf : Option String
  indicatorDaemon : Option String
  observerSelf : Option String
  observerDaemon : Option String
  packageName : String
  serviceName : String
  sdkVersion : Int

/-- Outcome of startForceStopDaemon: whether the NULL check rejected
the call, how many fork calls were made, and the per-process traces of
the detached grandchild daemon and of the original process. -/
structure StartResult where
  rejectedNull : Bool
  forkCount : Nat
  grandchildTrace : List SysEv
  parentTrace : List SysEv
deriving DecidableEq

/-- Embeds Java_com_service_framework_native_FwNative_startForceStopDaemon
(fw_force_stop.cpp:437-538).  Lines 449-453: when any of the four path
arguments is NULL the function logs and returns at once - before the
transaction-code computation, the string conversions, both forks, any
file creation or locking and any driver access.  Otherwise: the
transaction code is computed from sdkVersion (line 456), the process
forks twice (lines 472, 480; the middle child exits), the grandchild
appends "-c" to the four paths, pre-creates the two child indicator
files (lines 505-506; the observer files are NOT pre-created), sets
its process name and runs doDaemon; the original process waits for the
middle child (line 520) and runs doDaemon on the base paths,
pre-creating nothing.  The kernel outcomes seen by the two doDaemon
runs are supplied as envChild and envParent; their transactCode field
is overwritten by the computed code, as both runs receive the value
from line 456. -/
def startForceStopDaemon (a : StartArgs) (envChild envParent : DaemonEnv) :
    StartResult :=
  match a.indicatorSelf, a.indicatorDaemon, a.observerSelf, a.observerDaemon with
  | some iS, some iD, some _, some _ =>
    let code := getStartServiceTransactionCode a.sdkVersion
    { rejectedNull := false
      forkCount := 2
      grandchildTrace :=
        SysEv.createFile (childSuffix iS) ::
          SysEv.createFile (childSuffix iD) ::
          SysEv.setProcName "fw_daemon" ::
          (doDaemon { envChild with transactCode := code }).map SysEv.daemonStep
      parentTrace :=
        SysEv.waitMiddleChild ::
          (doDaemon { envParent with transactCode := code }).map SysEv.daemonStep }
  | _, _, _, _ =>
    { rejectedNull := true, forkCount := 0
      grandchildTrace := [], parentTrace := [] }

/-! ## Auxiliary definitions: the barrier invariant and concrete inputs -/

/-- Inductive invariant of the barrier step relation: a program counter
past atCreate witnesses the create step; an existing observer file
witnesses the create step of its owner; a finished instance witnesses
the sibling create step (it saw the sibling file); the deletion
counter of an instance is 1 after it finished and 0 before. -/
def BInv (s : BState) : Prop :=
  (s.pcA ≠ BPC.atCreate → s.createdA = true) ∧
  (s.pcB ≠ BPC.atCreate → s.createdB = true) ∧
  (s.fileA = true → s.createdA = true) ∧
  (s.fileB = true → s.createdB = true) ∧
  (s.pcA = BPC.atDone → s.createdB = true) ∧
  (s.pcB = BPC.atDone → s.createdA = true) ∧
  s.delA = (if s.pcA = BPC.atDone then 1 else 0) ∧
  s.delB = (if s.pcB = BPC.atDone then 1 else 0)

/-- Environment in which this instance wins its own lock at the first
attempt and the sibling instance is alive, still holding the sibling
indicator lock when line 353 runs. -/
def envLiveSibling : DaemonEnv :=
  { selfOpenOk := fun _ => true, selfHeldByOther := fun _ => false
    siblingOpenOk := true, siblingHeldByOther := true
    amsHandle := 7, transactCode := 34, pid := 100 }

/-- Environment in which this instance wins its own lock at the first
attempt and the sibling indicator lock is free (the sibling died), so
the line 353 lockFile call succeeds and the trigger branch runs. -/
def envTrigger : DaemonEnv :=
  { selfOpenOk := fun _ => true, selfHeldByOther := fun _ => false
    siblingOpenOk := true, siblingHeldByOther := false
    amsHandle := 7, transactCode := 26, pid := 42 }

/-- Environment in which every non-blocking self-lock attempt finds the
lock held by another process. -/
def envAllFail : DaemonEnv :=
  { selfOpenOk := fun _ => true, selfHeldByOther := fun _ => true
    siblingOpenOk := true, siblingHeldByOther := false
    amsHandle := 7, transactCode := 26, pid := 42 }

/-- A concrete registry: "activity" resolves to a reply carrying two
embedded objects with handles 7 and 9; every other name resolves to a
reply carrying none. -/
def registryW : String → RegistryReply := fun n =>
  if n = "activity" then { objects := [{ handle := 7 }, { handle := 9 }] }
  else { objects := [] }

/-- Concrete non-NULL arguments for the entry point. -/
def argsA : StartArgs :=
  { indicatorSelf := some "/data/a.ind", indicatorDaemon := some "/data/b.ind"
    observerSelf := some "/data/a.obs", observerDaemon := some "/data/b.obs"
    packageName := "pkg", serviceName := "svc", sdkVersion := 28 }

/-- Concrete arguments with a NULL observerSelf path. -/
def argsNull : StartArgs :=
  { indicatorSelf := some "/data/a.ind", indicatorDaemon := some "/data/b.ind"
    observerSelf := none, observerDaemon := some "/data/b.obs"
    packageName := "pkg", serviceName := "svc", sdkVersion := 30 }

/-! ## Helper lemmas -/

theorem lockAttemptPhase_submitCount (ok : Nat → Bool) :
    ∀ f t, submitCount (lockAttemptPhase ok t f).1 = 0 := by
  intro f
  induction f with
  | zero => intro t; rfl
  | succ f ih =>
    intro t
    by_cases h : ok t = true
    · simp [lockAttemptPhase, h, submitCount]
    · simp only [Bool.not_eq_true] at h
      simp [lockAttemptPhase, h, submitCount, List.countP_cons] at ih ⊢
      exact ih t.succ

theorem lockAttemptPhase_selfAttemptCount (ok : Nat → Bool) :
    ∀ f t, selfAttemptCount (lockAttemptPhase ok t f).1 ≤ f := by
  intro f
  induction f with
  | zero => intro t; exact Nat.le_refl 0
  | succ f ih =>
    intro t
    by_cases h : ok t = true
    · simp [lockAttemptPhase, h, selfAttemptCount]
    · simp only [Bool.not_eq_true] at h
      have h2 := ih (t + 1)
      simp only [selfAttemptCount] at h2 ⊢
      simp [lockAttemptPhase, h, List.countP_cons]
      omega

theorem lockAttemptPhase_congr (ok ok2 : Nat → Bool) :
    ∀ f t, (∀ k, t ≤ k → k < t + f → ok k = ok2 k) →
    lockAttemptPhase ok t f = lockAttemptPhase ok2 t f := by
  intro f
  induction f with
  | zero => intro t _; rfl
  | succ f ih =>
    intro t h
    have ht : ok t = ok2 t := h t (Nat.le_refl t) (by omega)
    have ih2 := ih (t + 1) (fun k hk1 hk2 => h k (by omega) (by omega))
    by_cases hc : ok2 t = true
    · simp [lockAttemptPhase, ht, hc]
    · simp only [Bool.not_eq_true] at hc
      simp [lockAttemptPhase, ht, hc, ih2]

theorem lockAttemptPhase_false :
    lockAttemptPhase (fun _ => false) 0 5 =
      ([Ev.lockSelfAttempt 0 false, Ev.sleepUs 10000,
        Ev.lockSelfAttempt 1 false, Ev.sleepUs 10000,
        Ev.lockSelfAttempt 2 false, Ev.sleepUs 10000,
        Ev.lockSelfAttempt 3 false, Ev.sleepUs 10000,
        Ev.lockSelfAttempt 4 false, Ev.sleepUs 10000], false) := by
  rfl

theorem drainLoop_selfHolds (contended : Nat → Bool) :
    ∀ fuel k, drainLoop contended true k fuel = none := by
  intro fuel
  induction fuel with
  | zero => intro k; rfl
  | succ fuel ih => intro k; simp [drainLoop, ih]

theorem takeWhile_map_daemonStep (tr : List Ev) :
    (tr.map SysEv.daemonStep).takeWhile (fun e => !e.isDaemonStep) = [] := by
  cases tr with
  | nil => rfl
  | cons a l => simp [List.takeWhile_cons, SysEv.isDaemonStep]

theorem binv_init : BInv binit := by
  simp [BInv, binit]

theorem binv_step (s s' : BState) (h : BInv s) (hs : BStep s s') : BInv s' := by
  obtain ⟨i1, i2, i3, i4, i5, i6, i7, i8⟩ := h
  cases hs with
  | createA hpc =>
    refine ⟨fun _ => rfl, i2, fun _ => rfl, i4, by simp, fun _ => rfl, ?_, i8⟩
    simpa [hpc] using i7
  | pollA hpc hf => exact ⟨i1, i2, i3, i4, i5, i6, i7, i8⟩
  | passA hpc hf =>
    refine ⟨fun _ => i1 (by simp [hpc]), i2, i3, by simp,
      fun _ => i4 hf, fun hb => i6 hb, ?_, i8⟩
    simp [hpc] at i7
    simp [i7]
  | createB hpc =>
    refine ⟨i1, fun _ => rfl, i3, fun _ => rfl, fun _ => rfl, by simp, i7, ?_⟩
    simpa [hpc] using i8
  | pollB hpc hf => exact ⟨i1, i2, i3, i4, i5, i6, i7, i8⟩
  | passB hpc hf =>
    refine ⟨i1, fun _ => i2 (by simp [hpc]), by simp, i4,
      fun hb => i5 hb, fun _ => i3 hf, i7, ?_⟩
    simp [hpc] at i8
    simp [i8]

theorem binv_reach (s : BState) (h : BReach s) : BInv s := by
  induction h with
  | refl => exact binv_init
  | tail hsteps hstep ih => exact binv_step _ _ ih hstep

theorem submitCount_append (a b : List Ev) :
    submitCount (a ++ b) = submitCount a + submitCount b := by
  simp [submitCount, List.countP_append]

theorem selfAttemptCount_append (a b : List Ev) :
    selfAttemptCount (a ++ b) = selfAttemptCount a + selfAttemptCount b := by
  simp [selfAttemptCount, List.countP_append]

theorem initCreates_cons_create (p : String) (tr : List SysEv) :
    initCreates (SysEv.createFile p :: tr) = p :: initCreates tr := by
  simp [initCreates, List.takeWhile_cons, SysEv.isDaemonStep]

theorem initCreates_cons_proc (n : String) (tr : List SysEv) :
    initCreates (SysEv.setProcName n :: tr) = initCreates tr := by
  simp [initCreates, List.takeWhile_cons, SysEv.isDaemonStep]

theorem initCreates_cons_wait (tr : List SysEv) :
    initCreates (SysEv.waitMiddleChild :: tr) = initCreates tr := by
  simp [initCreates, List.takeWhile_cons, SysEv.isDaemonStep]

theorem initCreates_map_daemon (tr : List Ev) :
    initCreates (tr.map SysEv.daemonStep) = [] := by
  simp [initCreates, takeWhile_map_daemonStep]

/-! ## Claim theorems -/

/-- C1: the claim states that the sibling-lock acquisition performed in
the Monitoring step is blocking, returning success only once the
sibling has died and suspending (rather than returning failure) while
the sibling is alive.  The code disagrees with its own comments here:
line 353 calls lockFile, which issues flock(fd, LOCK_EX | LOCK_NB) and
therefore returns 0 immediately when the sibling holds the lock, and
doDaemon then falls through and returns without submitting anything.
This theorem evaluates the embedding at the failing input (sibling
alive and holding its indicator lock): the line 353 attempt is the
last event, it records failure, and no submission, observer removal or
signal follows. -/
theorem monitoring_lock_returns_failure_when_sibling_alive :
    doDaemon envLiveSibling =
      [Ev.lockSelfAttempt 0 true, Ev.notifySync, Ev.openDriver,
       Ev.getService "activity", Ev.buildStartServiceParcel,
       Ev.lockSiblingAttempt false] ∧
    submitCount (doDaemon envLiveSibling) = 0 := by
  constructor <;> rfl

/-- C2: whenever the line 353 sibling-lock acquisition succeeds (death
detected) in a run whose self-lock phase succeeded, the remaining
trace of doDaemon is exactly: submit the pre-built request through
write_transact with flags TF_ONE_WAY and a NULL reply parcel
(fire-and-forget), then remove the own observer file, then send
SIGTERM to the own process group - in this order and nothing else. -/
theorem trigger_sequence_submit_remove_kill (env : DaemonEnv)
    (hself : (lockAttemptPhase
      (fun k => lockFile (env.selfOpenOk k) (env.selfHeldByOther k) = 1) 0 5).2 = true)
    (hsib : lockFile env.siblingOpenOk env.siblingHeldByOther = 1)
    (hpid : 0 < env.pid) :
    doDaemon env =
      (lockAttemptPhase
        (fun k => lockFile (env.selfOpenOk k) (env.selfHeldByOther k) = 1) 0 5).1 ++
      [Ev.notifySync, Ev.openDriver, Ev.getService "activity",
       Ev.buildStartServiceParcel, Ev.lockSiblingAttempt true,
       Ev.submitTransact env.amsHandle env.transactCode TF_ONE_WAY false,
       Ev.removeObserverSelf, Ev.killProcessGroup SIGTERM] := by
  unfold doDaemon
  simp [hself, hsib, hpid]

/-- C2 witness: the trigger sequence at a concrete environment in which
the first self-lock attempt succeeds and the sibling lock is free. -/
theorem trigger_sequence_witness :
    doDaemon envTrigger =
      [Ev.lockSelfAttempt 0 true, Ev.notifySync, Ev.openDriver,
       Ev.getService "activity", Ev.buildStartServiceParcel,
       Ev.lockSiblingAttempt true,
       Ev.submitTransact 7 26 TF_ONE_WAY false,
       Ev.removeObserverSelf, Ev.killProcessGroup SIGTERM] := by
  have h := trigger_sequence_submit_remove_kill envTrigger rfl rfl (by decide)
  rw [h]
  rfl

/-- C3: over every environment (every outcome of every lock call and
every transaction argument), the doDaemon trace contains at most one
write_transact submission: no path re-submits the revival request. -/
theorem revival_submitted_at_most_once (env : DaemonEnv) :
    submitCount (doDaemon env) ≤ 1 := by
  have h0 := lockAttemptPhase_submitCount
    (fun k => lockFile (env.selfOpenOk k) (env.selfHeldByOther k) = 1) 5 0
  unfold doDaemon
  dsimp only
  split
  · simp [h0]
  · rw [submitCount_append, submitCount_append, h0]
    split
    · split <;> simp [submitCount, List.countP_cons]
    · simp [submitCount, List.countP_cons]

/-- C3 witness: at the concrete trigger environment exactly one
submission occurs, which is at most one. -/
theorem revival_at_most_once_witness :
    submitCount (doDaemon envTrigger) ≤ 1 :=
  revival_submitted_at_most_once envTrigger

/-- C4: the LockingSelf loop (fw_force_stop.cpp:323-329) makes at most
5 non-blocking attempts in every run; and when all five attempts find
the lock unavailable, the full doDaemon trace is exactly the five
failed attempts interleaved with the fixed 10000-microsecond backoff,
after which the instance returns: no Syncing barrier, no driver, no
sibling-lock wait and no submission ever happens. -/
theorem locking_self_bounded_retries :
    (∀ env : DaemonEnv, selfAttemptCount (doDaemon env) ≤ 5) ∧
    (∀ env : DaemonEnv,
      (∀ k, k < 5 → lockFile (env.selfOpenOk k) (env.selfHeldByOther k) = 0) →
      doDaemon env =
        [Ev.lockSelfAttempt 0 false, Ev.sleepUs 10000,
         Ev.lockSelfAttempt 1 false, Ev.sleepUs 10000,
         Ev.lockSelfAttempt 2 false, Ev.sleepUs 10000,
         Ev.lockSelfAttempt 3 false, Ev.sleepUs 10000,
         Ev.lockSelfAttempt 4 false, Ev.sleepUs 10000] ∧
      Ev.notifySync ∉ doDaemon env ∧
      Ev.openDriver ∉ doDaemon env ∧
      (∀ b, Ev.lockSiblingAttempt b ∉ doDaemon env) ∧
      submitCount (doDaemon env) = 0) := by
  constructor
  · intro env
    have h5 := lockAttemptPhase_selfAttemptCount
      (fun k => lockFile (env.selfOpenOk k) (env.selfHeldByOther k) = 1) 5 0
    unfold doDaemon
    dsimp only
    split
    · exact h5
    · rw [selfAttemptCount_append, selfAttemptCount_append]
      have hmid : selfAttemptCount
          [Ev.notifySync, Ev.openDriver, Ev.getService "activity",
           Ev.buildStartServiceParcel,
           Ev.lockSiblingAttempt (lockFile env.siblingOpenOk env.siblingHeldByOther = 1)] = 0 := rfl
      rw [hmid]
      have htail : ∀ l : List Ev,
          l = (if lockFile env.siblingOpenOk env.siblingHeldByOther = 1 then
            Ev.submitTransact env.amsHandle env.transactCode TF_ONE_WAY false ::
              Ev.removeObserverSelf ::
              (if 0 < env.pid then [Ev.killProcessGroup SIGTERM] else [])
          else []) → selfAttemptCount l = 0 := by
        intro l hl
        rw [hl]
        split
        · split <;> rfl
        · rfl
      rw [htail _ rfl]
      omega
  · intro env hfail
    have hcongr := lockAttemptPhase_congr
      (fun k => lockFile (env.selfOpenOk k) (env.selfHeldByOther k) = 1)
      (fun _ => false) 5 0
      (fun k hk1 hk2 => by simp [hfail k (by omega)])
    have htr : doDaemon env =
        [Ev.lockSelfAttempt 0 false, Ev.sleepUs 10000,
         Ev.lockSelfAttempt 1 false, Ev.sleepUs 10000,
         Ev.lockSelfAttempt 2 false, Ev.sleepUs 10000,
         Ev.lockSelfAttempt 3 false, Ev.sleepUs 10000,
         Ev.lockSelfAttempt 4 false, Ev.sleepUs 10000] := by
      unfold doDaemon
      rw [hcongr, lockAttemptPhase_false]
      rfl
    refine ⟨htr, ?_, ?_, ?_, ?_⟩
    · rw [htr]; decide
    · rw [htr]; decide
    · intro b; rw [htr]; cases b <;> decide
    · rw [htr]; rfl

/-- C4 witness: the bounded-retry theorem at a concrete environment
whose lock is held externally at every attempt. -/
theorem locking_self_bounded_witness :
    doDaemon envAllFail =
      [Ev.lockSelfAttempt 0 false, Ev.sleepUs 10000,
       Ev.lockSelfAttempt 1 false, Ev.sleepUs 10000,
       Ev.lockSelfAttempt 2 false, Ev.sleepUs 10000,
       Ev.lockSelfAttempt 3 false, Ev.sleepUs 10000,
       Ev.lockSelfAttempt 4 false, Ev.sleepUs 10000] ∧
    submitCount (doDaemon envAllFail) = 0 := by
  have h := locking_self_bounded_retries.2 envAllFail (fun k _ => rfl)
  exact ⟨h.1, h.2.2.2.2⟩

/-- C5: for the two concurrent notifyAndWaitFor runs (embedded as the
BStep interleaving relation), every reachable state satisfies: an
instance that has completed the barrier (its program counter is past
the delete, so it is about to proceed to Monitoring) has created its
own observer file AND has witnessed the sibling create its file; and
each instance deletes the sibling announcement at most once overall,
exactly once by the time it completes the barrier. -/
theorem barrier_sync_correct (s : BState) (h : BReach s) :
    (s.pcA = BPC.atDone → s.createdA = true ∧ s.createdB = true) ∧
    (s.pcB = BPC.atDone → s.createdA = true ∧ s.createdB = true) ∧
    s.delA ≤ 1 ∧ s.delB ≤ 1 ∧
    (s.pcA = BPC.atDone → s.delA = 1) ∧
    (s.pcB = BPC.atDone → s.delB = 1) := by
  obtain ⟨i1, i2, i3, i4, i5, i6, i7, i8⟩ := binv_reach s h
  refine ⟨fun hd => ⟨i1 (by simp [hd]), i5 hd⟩,
          fun hd => ⟨i6 hd, i2 (by simp [hd])⟩,
          ?_, ?_, fun hd => by simp [i7, hd], fun hd => by simp [i8, hd]⟩
  · rw [i7]; split <;> omega
  · rw [i8]; split <;> omega

/-- C5 witness: a concrete interleaving (A creates, B creates, A
passes, B passes) reaches the state where both instances completed
the barrier; the theorem applied to it yields both create flags and
both one-time deletions. -/
theorem barrier_sync_witness :
    ({ pcA := BPC.atDone, pcB := BPC.atDone, fileA := false, fileB := false,
       createdA := true, createdB := true, delA := 1, delB := 1 } : BState).createdA = true ∧
    ({ pcA := BPC.atDone, pcB := BPC.atDone, fileA := false, fileB := false,
       createdA := true, createdB := true, delA := 1, delB := 1 } : BState).createdB = true ∧
    ({ pcA := BPC.atDone, pcB := BPC.atDone, fileA := false, fileB := false,
       createdA := true, createdB := true, delA := 1, delB := 1 } : BState).delA = 1 ∧
    ({ pcA := BPC.atDone, pcB := BPC.atDone, fileA := false, fileB := false,
       createdA := true, createdB := true, delA := 1, delB := 1 } : BState).delB = 1 := by
  have r0 : Relation.ReflTransGen BStep binit binit := Relation.ReflTransGen.refl
  have r1 := r0.tail (BStep.createA binit rfl)
  have r2 := r1.tail (BStep.createB _ rfl)
  have r3 := r2.tail (BStep.passA _ rfl rfl)
  have r4 := r3.tail (BStep.passB _ rfl rfl)
  have h := barrier_sync_correct _ r4
  exact ⟨(h.1 rfl).1, (h.1 rfl).2, h.2.2.2.2.1 rfl, h.2.2.2.2.2 rfl⟩

/-- C6: the claim states that the drain loop of waitForFileLock
releases the lock after each successful non-blocking acquisition and
terminates once the lock is actually contended.  The loop body
(fw_force_stop.cpp:241-243) contains no unlock: once a non-blocking
flock succeeds, this process holds the lock, every later flock on the
same descriptor is a successful same-mode conversion, and the loop
never exits - waitForFileLock never returns.  This theorem evaluates
the embedding at the failing inputs: with the lock uncontended the
loop runs out of any amount of fuel (first two parts, and the
waitForFileLock wrapper in the last part), even when contention
arises from iteration 1 on (second part); only a lock already
contended at entry makes the loop exit at once (third part). -/
theorem drain_loop_never_exits_uncontended :
    (∀ fuel, drainLoop (fun _ => false) false 0 fuel = none) ∧
    (∀ fuel, drainLoop (fun k => decide (1 ≤ k)) false 0 fuel = none) ∧
    drainLoop (fun _ => true) false 0 5 = some 0 ∧
    (∀ fuel, waitForFileLock (fun _ => false) fuel = none) := by
  have hbase : ∀ (c : Nat → Bool) fuel, c 0 = false →
      drainLoop c false 0 fuel = none := by
    intro c fuel hc
    cases fuel with
    | zero => rfl
    | succ fuel => simp [drainLoop, hc, drainLoop_selfHolds]
  have h1 : ∀ fuel, drainLoop (fun _ => false) false 0 fuel = none :=
    fun fuel => hbase (fun _ => false) fuel rfl
  refine ⟨h1, fun fuel => hbase (fun k => decide (1 ≤ k)) fuel (by decide),
    rfl, fun fuel => ?_⟩
  simp [waitForFileLock, h1 fuel]

/-- C7 counterexample: at concrete non-NULL paths, the Init phase of
the OriginalProcess role creates no file at all - in particular
neither its observer file nor even its indicator file - and the Init
phase of the DetachedDaemon role creates only the two suffixed
indicator files, not its observer files.  This refutes the claim that
every role creates all four marker files in Init. -/
theorem init_creates_counterexample :
    initCreates (startForceStopDaemon argsA envLiveSibling envLiveSibling).parentTrace
      = [] ∧
    initCreates (startForceStopDaemon argsA envLiveSibling envLiveSibling).grandchildTrace
      = ["/data/a.ind-c", "/data/b.ind-c"] ∧
    "/data/a.obs" ∉
      initCreates (startForceStopDaemon argsA envLiveSibling envLiveSibling).parentTrace ∧
    "/data/a.obs-c" ∉
      initCreates (startForceStopDaemon argsA envLiveSibling envLiveSibling).grandchildTrace := by
  refine ⟨rfl, rfl, ?_, ?_⟩ <;> decide

/-- C7 amended: in the Init step, the DetachedDaemon role creates, if
absent, exactly its two suffixed indicator files, and the
OriginalProcess role creates nothing; observer files are never
pre-created in Init (they are created on demand later, by
notifyAndWaitFor, and the parent indicator files by lockFile). -/
theorem init_creates_only_child_indicators (iS iD oS oD pkg svc : String)
    (sdk : Int) (envC envP : DaemonEnv) :
    initCreates (startForceStopDaemon
      { indicatorSelf := some iS, indicatorDaemon := some iD,
        observerSelf := some oS, observerDaemon := some oD,
        packageName := pkg, serviceName := svc, sdkVersion := sdk }
      envC envP).grandchildTrace = [childSuffix iS, childSuffix iD] ∧
    initCreates (startForceStopDaemon
      { indicatorSelf := some iS, indicatorDaemon := some iD,
        observerSelf := some oS, observerDaemon := some oD,
        packageName := pkg, serviceName := svc, sdkVersion := sdk }
      envC envP).parentTrace = [] := by
  constructor <;>
    simp [startForceStopDaemon, initCreates_cons_create, initCreates_cons_proc,
      initCreates_cons_wait, initCreates_map_daemon]

/-- C8: for every registry environment and every service name,
getServiceHandle returns 0 (the NotFound outcome) when the reply
carries no embedded reference - as a normal return value of the total
function, with no exceptional path - and returns exactly the handle
field of the first embedded object when one is present. -/
theorem resolve_returns_first_handle_or_zero (registry : String → RegistryReply)
    (name : String) :
    ((registry name).objects = [] → getServiceHandle registry name = 0) ∧
    (∀ o rest, (registry name).objects = o :: rest →
      getServiceHandle registry name = o.handle) := by
  constructor
  · intro h
    simp [getServiceHandle, readObject, h]
  · intro o rest h
    simp [getServiceHandle, readObject, h]

/-- C8 witness: against the concrete registry registryW, an
unregistered name resolves to 0 and "activity" resolves to the handle
of the first embedded object, 7. -/
theorem resolve_witness :
    getServiceHandle registryW "media" = 0 ∧
    getServiceHandle registryW "activity" = 7 := by
  refine ⟨(resolve_returns_first_handle_or_zero registryW "media").1 rfl,
    (resolve_returns_first_handle_or_zero registryW "activity").2
      { handle := 7 } [{ handle := 9 }] rfl⟩

/-- C9: when any of the four path arguments of the entry point is
NULL, startForceStopDaemon returns the rejected result: no fork, an
empty trace for both processes (so no file creation, no locking, no
driver access, no daemon step at all). -/
theorem null_path_rejected_no_effects (a : StartArgs) (envC envP : DaemonEnv)
    (h : a.indicatorSelf = none ∨ a.indicatorDaemon = none ∨
      a.observerSelf = none ∨ a.observerDaemon = none) :
    startForceStopDaemon a envC envP =
      { rejectedNull := true, forkCount := 0,
        grandchildTrace := [], parentTrace := [] } := by
  obtain ⟨i1, i2, o1, o2, p, sv, v⟩ := a
  rcases h with h | h | h | h
  · subst h; cases i2 <;> cases o1 <;> cases o2 <;> rfl
  · subst h; cases i1 <;> cases o1 <;> cases o2 <;> rfl
  · subst h; cases i1 <;> cases i2 <;> cases o2 <;> rfl
  · subst h; cases i1 <;> cases i2 <;> cases o1 <;> rfl

/-- C9 witness: the rejection at concrete arguments whose observerSelf
path is NULL. -/
theorem null_path_rejected_witness :
    startForceStopDaemon argsNull envTrigger envTrigger =
      { rejectedNull := true, forkCount := 0,
        grandchildTrace := [], parentTrace := [] } :=
  null_path_rejected_no_effects argsNull envTrigger envTrigger
    (Or.inr (Or.inr (Or.inl rfl)))

/-- C10: getStartServiceTransactionCode is total on Int and maps 26 and
27 to 26, 28 to 30, 29 to 24, and every other integer - below 26,
above 29, negative - to 34. -/
theorem transaction_code_total_map :
    (∀ v : Int, (v = 26 ∨ v = 27) → getStartServiceTransactionCode v = 26) ∧
    getStartServiceTransactionCode 28 = 30 ∧
    getStartServiceTransactionCode 29 = 24 ∧
    (∀ v : Int, v ≠ 26 → v ≠ 27 → v ≠ 28 → v ≠ 29 →
      getStartServiceTransactionCode v = 34) := by
  refine ⟨?_, rfl, rfl, ?_⟩
  · intro v hv
    rcases hv with rfl | rfl <;> rfl
  · intro v h1 h2 h3 h4
    simp [getStartServiceTransactionCode, h1, h2, h3, h4]

/-- C10 witness: the mapping theorem applied at 27 (a listed revision)
and at -5 (an unlisted one). -/
theorem transaction_code_witness :
    getStartServiceTransactionCode 27 = 26 ∧
    getStartServiceTransactionCode (-5) = 34 :=
  ⟨transaction_code_total_map.1 27 (Or.inr rfl),
   transaction_code_total_map.2.2.2 (-5) (by decide) (by decide) (by decide) (by decide)⟩

end KeepLive
